import Mathlib

/- Shallow embedding of the TransitSense railway assistant
   (src/rag_pipeline.py and src/app.py) and proofs about it.

   External services (the OpenAI chat model, the structured-output model,
   the OpenAI embedding provider and the FAISS nearest-neighbour index)
   are modelled as explicit function parameters (oracles); everything the
   repository itself implements is translated directly. -/

/-! ## Messages (langchain message objects, as used by this program) -/

/-- A conversation message. `ai` carries the `tool_calls` list (here: the
query string of each requested `search_railway_info` call); the other
kinds have an empty `tool_calls` attribute in langchain, modelled by the
`tool_calls` projection below returning `[]`. -/
inductive BaseMessage where
  | human (content : String)
  | system (content : String)
  | ai (content : String) (tool_calls : List String)
  | tool (content : String)
  deriving DecidableEq, Repr

def BaseMessage.content : BaseMessage → String
  | .human c => c
  | .system c => c
  | .ai c _ => c
  | .tool c => c

def BaseMessage.tool_calls : BaseMessage → List String
  | .ai _ tc => tc
  | _ => []

/-- Python `isinstance(m, AIMessage)`. -/
def BaseMessage.isAI : BaseMessage → Bool
  | .ai _ _ => true
  | _ => false

/-! ## Python string primitives -/

/-- Python `s.lower()`: lower-case every character (modelled on the ASCII
range, which covers every string this program compares). -/
def pyLower (s : String) : String := String.mk (s.data.map Char.toLower)

/-- Python `s.strip()`: remove leading and trailing whitespace. -/
def pyStrip (s : String) : String :=
  String.mk (((s.data.dropWhile Char.isWhitespace).reverse.dropWhile Char.isWhitespace).reverse)

/-! ## Python substring containment -/

/-- Python `p in s` on strings: `p` occurs contiguously inside `s`. -/
def substr (p s : String) : Prop := p.data <:+: s.data

instance (p s : String) : Decidable (substr p s) := by
  unfold substr
  infer_instance

/-- Executable form of `substr`, used where the source branches on it. -/
def strContains (s p : String) : Bool := decide (substr p s)

theorem substr_refl (s : String) : substr s s := List.infix_refl s.data

theorem substr_append_left (p s t : String) (h : substr p s) : substr p (s ++ t) := by
  unfold substr at h ⊢
  rw [String.data_append]
  exact List.IsInfix.trans h (List.IsPrefix.isInfix (List.prefix_append s.data t.data))

theorem substr_append_right (p s t : String) (h : substr p t) : substr p (s ++ t) := by
  unfold substr at h ⊢
  rw [String.data_append]
  exact List.IsInfix.trans h (List.IsSuffix.isInfix (List.suffix_append s.data t.data))

/-! ## Fixed strings of `agent_logic` (src/app.py lines 79-109) -/

def affirmativeSet : List String := ["yes", "y", "book", "book it", "confirm", "ok book"]

def negativeSet : List String := ["no", "nope", "nah"]

/-- Content of the fixed booking-link reply (src/app.py lines 83-87). -/
def irctcResponse : String :=
  "Great! You can book the ticket using the official IRCTC portal:\n" ++
  "👉 **https://www.irctc.co.in/nget/train-search**\n\n" ++
  "If you\x27d like, I can help you find more trains or compare prices!"

/-- Content of the fixed decline reply (src/app.py line 97). -/
def declineResponse : String := "No problem! Tell me what else you want to search or ask."

/-- The fixed system instruction (src/app.py lines 103-110). -/
def systemPrompt : String :=
  "You are TransitSense.\n" ++
  "1. Use \x27search_railway_info\x27 tool when user asks about schedules or policies.\n" ++
  "2. If user says \x27book this\x27 or \x27confirm ticket\x27, ask for passenger name if missing.\n" ++
  "3. When ready, output EXACT TEXT: READY_TO_BOOK.\n"

def readySentinel : String := "READY_TO_BOOK"

/-! ## The agent node -/

/-- Reply of one chat-model invocation (`llm_with_tools.invoke`): an
AIMessage, i.e. a content string plus the list of requested tool calls. -/
structure AIReply where
  content : String
  tool_calls : List String
  deriving DecidableEq, Repr

/-- The `agent_logic` node (src/app.py lines 74-113). The chat model
`llm_with_tools.invoke` is an oracle parameter `llm`. `messages[-1]` on an
empty history raises in Python, modelled by `none`. Returns the single
message the node appends to the state. Note the source lower-cases the
latest message content but does not strip it. -/
def agent_logic (llm : List BaseMessage → AIReply) (messages : List BaseMessage) :
    Option BaseMessage :=
  match messages.getLast? with
  | none => none
  | some last =>
    let user_msg := pyLower last.content
    if user_msg ∈ affirmativeSet then
      some (BaseMessage.ai irctcResponse [])
    else if user_msg ∈ negativeSet then
      some (BaseMessage.ai declineResponse [])
    else
      let r := llm (BaseMessage.system systemPrompt :: messages)
      some (BaseMessage.ai r.content r.tool_calls)

/-! ## Graph wiring (src/app.py lines 127-161) -/

/-- Target of the conditional edge leaving the `agent` node. -/
inductive Route where
  | tools
  | booking
  | done
  deriving DecidableEq, Repr

/-- The conditional-edge lambda (src/app.py lines 136-153): tools if the
last message is an AIMessage with a non-empty `tool_calls` list, else
booking if its content contains `READY_TO_BOOK`, else END. -/
def routeAfterAgent (last : BaseMessage) : Route :=
  if last.isAI && !last.tool_calls.isEmpty then Route.tools
  else if strContains last.content readySentinel then Route.booking
  else Route.done

/-- One `app.invoke` run starting at the `agent` entry point, following the
compiled graph: agent → (tools → agent)* → (booking | END). `tool` is the
`search_railway_info` body, `structured` models
`str(structured_llm.invoke(messages))` of the `booking_parser` node
(src/app.py lines 117-123). The source graph has no iteration limit, so the
interpreter takes explicit fuel; `none` means the turn did not finish
within `fuel` agent invocations. -/
def runFromAgent (llm : List BaseMessage → AIReply) (tool : String → String)
    (structured : List BaseMessage → String) :
    Nat → List BaseMessage → Option (List BaseMessage)
  | 0, _ => none
  | fuel+1, msgs =>
    match agent_logic llm msgs with
    | none => none
    | some resp =>
      let msgs1 := msgs ++ [resp]
      match routeAfterAgent resp with
      | Route.tools =>
          runFromAgent llm tool structured fuel
            (msgs1 ++ resp.tool_calls.map (fun q => BaseMessage.tool (tool q)))
      | Route.booking => some (msgs1 ++ [BaseMessage.ai (structured msgs1) []])
      | Route.done => some msgs1

/-- One iteration of the main chat loop (src/app.py lines 170-177): the
raw input line is stripped and a fresh state holding only that
HumanMessage is passed to `app.invoke`. -/
def runTurn (llm : List BaseMessage → AIReply) (tool : String → String)
    (structured : List BaseMessage → String) (fuel : Nat) (userInput : String) :
    Option (List BaseMessage) :=
  runFromAgent llm tool structured fuel [BaseMessage.human (pyStrip userInput)]

/-! ## Documents and train records (src/rag_pipeline.py) -/

/-- A langchain `Document` as this program builds them: a `page_content`
string and the single metadata entry `metadata["source"]`. -/
structure Document where
  page_content : String
  source : String
  deriving DecidableEq, Repr

/-- A record of the parsed schedule JSON: a finite map from field name to
the field value as it is rendered inside the f-string (`str` of the JSON
value). A key absent from the map models a record lacking that field, so
`getField` models Python subscripting with its `KeyError`. -/
abbrev TrainRecord : Type := List (String × String)

/-- Python `t[k]` on a dict: the value, or a raised `KeyError k`. -/
def getField (t : TrainRecord) (k : String) : Except String String :=
  match List.lookup k t with
  | some v => Except.ok v
  | none => Except.error k

/-- The f-string of `_load_json_docs` (src/rag_pipeline.py lines 37-41),
evaluating the seven subscripts in source order. -/
def renderTrain (t : TrainRecord) : Except String String := do
  let name ← getField t ("name")
  let trainNo ← getField t ("train_no")
  let src ← getField t ("source")
  let dst ← getField t ("destination")
  let price ← getField t ("price")
  let cls ← getField t ("class")
  let days ← getField t ("days")
  return "Train " ++ name ++ " (" ++ trainNo ++ ") travels from " ++ src ++ " to " ++ dst ++
    ". Price: " ++ price ++ ". Class: " ++ cls ++ ". Days: " ++ days ++ "."

/-- The `docs` accumulation loop of `_load_json_docs`: one Document per
record, in order; the first missing field aborts the whole load with the
corresponding `KeyError` (nothing is skipped or returned partially). -/
def renderAll : List TrainRecord → Except String (List Document)
  | [] => Except.ok []
  | t :: ts => do
    let text ← renderTrain t
    let rest ← renderAll ts
    return Document.mk text ("schedule") :: rest

def jsonNotFoundWarning : String := "⚠️ Warning: train_data.json not found."

def policyNotFoundWarning : String := "⚠️ Warning: policies.txt not found."

/-- `_load_json_docs` (src/rag_pipeline.py lines 29-49). The input is the
parsed content of `train_data.json`, `none` modelling `FileNotFoundError`,
which is caught: a warning is printed (second component) and zero
documents are contributed. Any other error (`KeyError`) escapes. -/
def load_json_docs : Option (List TrainRecord) → Except String (List Document × List String)
  | none => Except.ok ([], [jsonNotFoundWarning])
  | some data => do
    let docs ← renderAll data
    return (docs, [])

/-! ## The text splitter -/

def chunk_size : Nat := 500

def chunk_overlap : Nat := 80

/-- Distance between the starts of consecutive windows. -/
def windowStride : Nat := chunk_size - chunk_overlap

/-- Modelled from the spec: `RecursiveCharacterTextSplitter` is a
third-party library whose source is not part of this repository; the spec
describes its effect as splitting the text into overlapping character
windows of size 500 with overlap 80 (boundary preferences are explicitly
left underspecified). We model it as the deterministic character-cut
splitter: windows of `chunk_size` characters starting every
`windowStride = 420` characters, the final window holding the remainder. -/
def splitWindows (l : List Char) : List (List Char) :=
  if _h : l.length ≤ chunk_size then (if l.isEmpty then [] else [l])
  else l.take chunk_size :: splitWindows (l.drop windowStride)
termination_by l.length
decreasing_by
  simp only [List.length_drop, windowStride, chunk_size, chunk_overlap]
  omega

/-- `_load_text_docs` (src/rag_pipeline.py lines 52-69): the input is the
content of `policies.txt`, `none` modelling the caught
`FileNotFoundError` (warning plus zero documents); otherwise every window
becomes one Document whose metadata source is set to `policy`. -/
def load_text_docs : Option String → List Document × List String
  | none => ([], [policyNotFoundWarning])
  | some text =>
    ((splitWindows text.data).map (fun w => Document.mk (String.mk w) ("policy")), [])

/-! ## The retriever -/

/-- `TransitRetriever` state after `__init__`: `retriever` is `none` when
`_build_pipeline` returned without indexing (no documents), otherwise it
holds the indexed documents with the `k = 3` retriever over them. The
FAISS index and the embedding provider are external; the indexed document
list is all the state the proofs need. -/
structure TransitRetriever where
  retriever : Option (List Document)
  deriving DecidableEq, Repr

/-- The document-gathering part of `_build_pipeline` (src/rag_pipeline.py
lines 75-78): `all_docs = train_docs + policy_docs`. -/
def loadAllDocs (jsonData : Option (List TrainRecord)) (policyText : Option String) :
    Except String (List Document) := do
  let (train_docs, _) ← load_json_docs jsonData
  let (policy_docs, _) := load_text_docs policyText
  return train_docs ++ policy_docs

/-- `TransitRetriever.__init__` / `_build_pipeline` (src/rag_pipeline.py
lines 19-89): if no documents were gathered, return with the retriever
left `None`; otherwise index them. Errors escaping the loaders escape the
constructor. -/
def TransitRetriever.init (jsonData : Option (List TrainRecord))
    (policyText : Option String) : Except String TransitRetriever := do
  let all_docs ← loadAllDocs jsonData policyText
  if all_docs.isEmpty then return TransitRetriever.mk none
  else return TransitRetriever.mk (some all_docs)

def notInitializedMsg : String := "Pipeline not initialized."

/-- `TransitRetriever.search` (src/rag_pipeline.py lines 92-98). The
external FAISS similarity lookup is the oracle `nn`: given the indexed
documents and a query it returns them ranked similarity-descending;
`as_retriever(search_kwargs={"k": 3})` keeps the first three of that
ranking. The texts are joined with blank lines. A total function: the
uninitialized case returns the fixed sentinel instead of failing. -/
def TransitRetriever.search (nn : List Document → String → List Document)
    (r : TransitRetriever) (q : String) : String :=
  match r.retriever with
  | none => notInitializedMsg
  | some docs =>
    String.intercalate ("\n\n") (((nn docs q).take 3).map Document.page_content)

/-! ## Startup of src/app.py -/

/-- Outcome of the module-level startup block (src/app.py lines 32-36):
either the retriever was constructed, or the exception message was
printed and the process exited. -/
inductive Startup where
  | running (db : TransitRetriever)
  | exited (errMsg : String)
  deriving DecidableEq, Repr

def startApp (jsonData : Option (List TrainRecord)) (policyText : Option String) : Startup :=
  match TransitRetriever.init jsonData policyText with
  | Except.ok db => Startup.running db
  | Except.error e => Startup.exited e

/-! ## Claim theorems -/

set_option maxRecDepth 40000

/-- Shared fact: for any oracle, `agent_logic` returns the fixed IRCTC
reply whenever the lower-cased (untrimmed) latest message is in the
affirmative set. -/
theorem agent_logic_affirmative (llm : List BaseMessage → AIReply)
    (msgs : List BaseMessage) (last : BaseMessage)
    (hlast : msgs.getLast? = some last)
    (haff : pyLower last.content ∈ affirmativeSet) :
    agent_logic llm msgs = some (BaseMessage.ai irctcResponse []) := by
  simp only [agent_logic, hlast]
  simp [haff]

/-- Shared fact: the decline analogue of `agent_logic_affirmative`. -/
theorem agent_logic_negative (llm : List BaseMessage → AIReply)
    (msgs : List BaseMessage) (last : BaseMessage)
    (hlast : msgs.getLast? = some last)
    (hneg : pyLower last.content ∈ negativeSet)
    (hnaff : pyLower last.content ∉ affirmativeSet) :
    agent_logic llm msgs = some (BaseMessage.ai declineResponse []) := by
  simp only [agent_logic, hlast]
  simp [hneg, hnaff]

/-- C1 counterexample: the message text `" yes "` lower-cases and trims to
`"yes"`, a member of the affirmative set, yet `agent_logic` does not
return the booking-link reply (the source lower-cases but never strips),
it invokes the chat model instead. -/
theorem C1_counterexample :
    pyStrip (pyLower (BaseMessage.human (" yes ")).content) ∈ affirmativeSet ∧
    agent_logic (fun _ => AIReply.mk ("Which train?") []) [BaseMessage.human (" yes ")] =
      some (BaseMessage.ai ("Which train?") []) ∧
    agent_logic (fun _ => AIReply.mk ("Which train?") []) [BaseMessage.human (" yes ")] ≠
      some (BaseMessage.ai irctcResponse []) :=
  ⟨by decide, by decide, by decide⟩

/-- C1 (amended): for every conversation state whose latest message text,
lower-cased (the agent step does not trim; user input is stripped by the
chat loop before it enters the state), exactly matches a member of the
affirmative set, the agent step returns the fixed booking-link reply
containing the IRCTC URL, its result does not depend on the chat model or
on the tool, and the turn ends there (the conditional edge routes to END,
so no tool node and no booking node runs). -/
theorem C1_affirmative_fixed_reply (llm llm' : List BaseMessage → AIReply)
    (tool tool' : String → String) (structured structured' : List BaseMessage → String)
    (fuel : Nat) (msgs : List BaseMessage) (last : BaseMessage)
    (hlast : msgs.getLast? = some last)
    (haff : pyLower last.content ∈ affirmativeSet) :
    agent_logic llm msgs = some (BaseMessage.ai irctcResponse []) ∧
    agent_logic llm msgs = agent_logic llm' msgs ∧
    substr ("https://www.irctc.co.in") irctcResponse ∧
    routeAfterAgent (BaseMessage.ai irctcResponse []) = Route.done ∧
    runFromAgent llm tool structured (fuel+1) msgs =
      some (msgs ++ [BaseMessage.ai irctcResponse []]) ∧
    runFromAgent llm tool structured (fuel+1) msgs =
      runFromAgent llm' tool' structured' (fuel+1) msgs := by
  have hroute : routeAfterAgent (BaseMessage.ai irctcResponse []) = Route.done := by decide
  have hrun : ∀ (f : List BaseMessage → AIReply) (t : String → String)
      (st : List BaseMessage → String),
      runFromAgent f t st (fuel+1) msgs = some (msgs ++ [BaseMessage.ai irctcResponse []]) := by
    intro f t st
    simp only [runFromAgent, agent_logic_affirmative f msgs last hlast haff, hroute]
  refine ⟨agent_logic_affirmative llm msgs last hlast haff, ?_, by decide, hroute,
    hrun llm tool structured, ?_⟩
  · exact (agent_logic_affirmative llm msgs last hlast haff).trans
      (agent_logic_affirmative llm' msgs last hlast haff).symm
  · exact (hrun llm tool structured).trans (hrun llm' tool' structured').symm

/-- Witness for C1 at the concrete input `"yes"`: one turn appends exactly
the fixed booking-link reply. -/
theorem C1_witness :
    runFromAgent (fun _ => AIReply.mk ("x") []) (fun q => q) (fun _ => ("b")) 1
        [BaseMessage.human ("yes")] =
      some [BaseMessage.human ("yes"), BaseMessage.ai irctcResponse []] :=
  (C1_affirmative_fixed_reply (fun _ => AIReply.mk ("x") []) (fun _ => AIReply.mk ("x") [])
    (fun q => q) (fun q => q) (fun _ => ("b")) (fun _ => ("b")) 0
    [BaseMessage.human ("yes")] (BaseMessage.human ("yes")) (by decide) (by decide)).2.2.2.2.1

/-- C7 counterexample: the message text `" no "` lower-cases and trims to
`"no"`, a member of the negative set, yet `agent_logic` does not return
the decline reply (the source lower-cases but never strips), it invokes
the chat model instead. -/
theorem C7_counterexample :
    pyStrip (pyLower (BaseMessage.human (" no ")).content) ∈ negativeSet ∧
    agent_logic (fun _ => AIReply.mk ("Which train?") []) [BaseMessage.human (" no ")] =
      some (BaseMessage.ai ("Which train?") []) ∧
    agent_logic (fun _ => AIReply.mk ("Which train?") []) [BaseMessage.human (" no ")] ≠
      some (BaseMessage.ai declineResponse []) :=
  ⟨by decide, by decide, by decide⟩

/-- C7 (amended): for every conversation state whose latest message text,
lower-cased (the agent step does not trim; user input is stripped by the
chat loop before it enters the state), exactly matches a member of the
negative set, the agent step returns the fixed decline acknowledgment,
its result does not depend on the chat model or on the tool, and the turn
ends there (the conditional edge routes to END). The lower-cased text of
a negative-set message is never in the affirmative set, so the first
branch cannot fire. -/
theorem C7_negative_fixed_reply (llm llm' : List BaseMessage → AIReply)
    (tool tool' : String → String) (structured structured' : List BaseMessage → String)
    (fuel : Nat) (msgs : List BaseMessage) (last : BaseMessage)
    (hlast : msgs.getLast? = some last)
    (hneg : pyLower last.content ∈ negativeSet) :
    agent_logic llm msgs = some (BaseMessage.ai declineResponse []) ∧
    agent_logic llm msgs = agent_logic llm' msgs ∧
    routeAfterAgent (BaseMessage.ai declineResponse []) = Route.done ∧
    runFromAgent llm tool structured (fuel+1) msgs =
      some (msgs ++ [BaseMessage.ai declineResponse []]) ∧
    runFromAgent llm tool structured (fuel+1) msgs =
      runFromAgent llm' tool' structured' (fuel+1) msgs := by
  have hnaff : pyLower last.content ∉ affirmativeSet := by
    simp only [negativeSet, List.mem_cons, List.not_mem_nil, or_false] at hneg
    rcases hneg with h | h | h <;> rw [h] <;> decide
  have hroute : routeAfterAgent (BaseMessage.ai declineResponse []) = Route.done := by decide
  have hrun : ∀ (f : List BaseMessage → AIReply) (t : String → String)
      (st : List BaseMessage → String),
      runFromAgent f t st (fuel+1) msgs = some (msgs ++ [BaseMessage.ai declineResponse []]) := by
    intro f t st
    simp only [runFromAgent, agent_logic_negative f msgs last hlast hneg hnaff, hroute]
  refine ⟨agent_logic_negative llm msgs last hlast hneg hnaff, ?_, hroute,
    hrun llm tool structured, ?_⟩
  · exact (agent_logic_negative llm msgs last hlast hneg hnaff).trans
      (agent_logic_negative llm' msgs last hlast hneg hnaff).symm
  · exact (hrun llm tool structured).trans (hrun llm' tool' structured').symm

/-- Witness for C7 at the concrete input `"no"`: one turn appends exactly
the fixed decline reply. -/
theorem C7_witness :
    runFromAgent (fun _ => AIReply.mk ("x") []) (fun q => q) (fun _ => ("b")) 1
        [BaseMessage.human ("no")] =
      some [BaseMessage.human ("no"), BaseMessage.ai declineResponse []] :=
  (C7_negative_fixed_reply (fun _ => AIReply.mk ("x") []) (fun _ => AIReply.mk ("x") [])
    (fun q => q) (fun q => q) (fun _ => ("b")) (fun _ => ("b")) 0
    [BaseMessage.human ("no")] (BaseMessage.human ("no")) (by decide) (by decide)).2.2.2.1

/-- Shared fact: whatever `agent_logic` appends is an AIMessage, so the
`isinstance` test of the conditional edge succeeds on it. -/
theorem agent_logic_isAI (llm : List BaseMessage → AIReply) (msgs : List BaseMessage)
    (resp : BaseMessage) (h : agent_logic llm msgs = some resp) : resp.isAI = true := by
  unfold agent_logic at h
  cases hl : msgs.getLast? with
  | none => rw [hl] at h; exact absurd h (by simp)
  | some last =>
    rw [hl] at h
    simp only at h
    split at h
    · injection h with h2; subst h2; rfl
    · split at h
      · injection h with h2; subst h2; rfl
      · injection h with h2; subst h2; rfl

/-- C2: dispatch after one model response inside a turn. If the response
carries tool calls, the conditional edge picks the tool node, which
executes each requested search, appends one tool-result message per call,
and control returns to the agent node (the loop repeats until a response
without tool calls, burning one unit of fuel per iteration). Otherwise,
if the response text contains `READY_TO_BOOK`, the booking node runs one
structured-output model call over the full history (including the
sentinel response) and its rendering is appended as the final reply.
Otherwise the turn ends with the response itself as the final message.
The tool-call test takes precedence: the first branch applies whenever
`tool_calls` is non-empty, no matter whether the sentinel occurs. -/
theorem C2_conditional_routing (llm : List BaseMessage → AIReply) (tool : String → String)
    (structured : List BaseMessage → String) (fuel : Nat) (msgs : List BaseMessage)
    (resp : BaseMessage) (hresp : agent_logic llm msgs = some resp) :
    (resp.tool_calls ≠ [] →
      routeAfterAgent resp = Route.tools ∧
      runFromAgent llm tool structured (fuel+1) msgs =
        runFromAgent llm tool structured fuel
          ((msgs ++ [resp]) ++ resp.tool_calls.map (fun q => BaseMessage.tool (tool q)))) ∧
    (resp.tool_calls = [] → strContains resp.content readySentinel = true →
      routeAfterAgent resp = Route.booking ∧
      runFromAgent llm tool structured (fuel+1) msgs =
        some ((msgs ++ [resp]) ++ [BaseMessage.ai (structured (msgs ++ [resp])) []])) ∧
    (resp.tool_calls = [] → strContains resp.content readySentinel = false →
      routeAfterAgent resp = Route.done ∧
      runFromAgent llm tool structured (fuel+1) msgs = some (msgs ++ [resp]) ∧
      (msgs ++ [resp]).getLast? = some resp) := by
  have hAI := agent_logic_isAI llm msgs resp hresp
  refine ⟨?_, ?_, ?_⟩
  · intro htc
    have hroute : routeAfterAgent resp = Route.tools := by
      unfold routeAfterAgent
      rw [hAI]
      simp [htc]
    exact ⟨hroute, by simp only [runFromAgent, hresp, hroute]⟩
  · intro htc hsent
    have hroute : routeAfterAgent resp = Route.booking := by
      unfold routeAfterAgent
      simp [htc, hsent]
    exact ⟨hroute, by simp only [runFromAgent, hresp, hroute]⟩
  · intro htc hsent
    have hroute : routeAfterAgent resp = Route.done := by
      unfold routeAfterAgent
      simp [htc, hsent]
    exact ⟨hroute, by simp only [runFromAgent, hresp, hroute], by simp⟩

/-- A model oracle that immediately signals readiness to book. -/
def readyLLM : List BaseMessage → AIReply := fun _ => AIReply.mk ("READY_TO_BOOK") []

/-- Witness for C2: on input `"please book"` the oracle answers with the
sentinel and no tool calls, so the booking branch runs and the structured
record rendering is the final reply. -/
theorem C2_witness :
    runFromAgent readyLLM (fun q => q) (fun _ => ("BKG")) 1 [BaseMessage.human ("please book")] =
      some [BaseMessage.human ("please book"), BaseMessage.ai ("READY_TO_BOOK") [],
        BaseMessage.ai ("BKG") []] :=
  ((C2_conditional_routing readyLLM (fun q => q) (fun _ => ("BKG")) 0
      [BaseMessage.human ("please book")] (BaseMessage.ai ("READY_TO_BOOK") [])
      (by decide)).2.1 rfl (by decide)).2

/-- A model oracle that requests the search tool on every invocation. -/
def loopLLM : List BaseMessage → AIReply :=
  fun _ => AIReply.mk ("Searching again.") [("trains to delhi")]

/-- The search tool fixed at a result that matches no canned branch. -/
def loopTool : String → String := fun _ => ("Train timetable data.")

/-- Shared fact: under `loopLLM` every turn whose latest message avoids
the canned yes/no branches exhausts any amount of fuel. -/
theorem runFromAgent_loop_none (structured : List BaseMessage → String) (fuel : Nat) :
    ∀ (msgs : List BaseMessage) (last : BaseMessage), msgs.getLast? = some last →
      pyLower last.content ∉ affirmativeSet → pyLower last.content ∉ negativeSet →
      runFromAgent loopLLM loopTool structured fuel msgs = none := by
  induction fuel with
  | zero =>
    intro msgs last _ _ _
    rfl
  | succ n ih =>
    intro msgs last hlast hna hnn
    have hagent : agent_logic loopLLM msgs =
        some (BaseMessage.ai ("Searching again.") [("trains to delhi")]) := by
      simp only [agent_logic, hlast]
      simp [hna, hnn, loopLLM]
    have hroute : routeAfterAgent (BaseMessage.ai ("Searching again.") [("trains to delhi")]) =
        Route.tools := by decide
    simp only [runFromAgent, hagent, hroute, List.map_cons, List.map_nil]
    exact ih _ (BaseMessage.tool ("Train timetable data.")) (by simp [loopTool]; decide)
      (by decide) (by decide)

/-- C9: the loop back from the tool node to the agent node has no
iteration limit. With a model oracle that requests the search tool on
every invocation, processing of the single user turn `"find trains to
delhi"` consumes any amount of fuel without terminating: the fuelled
interpreter returns `none` for every fuel value. -/
theorem C9_unbounded_tool_loop (structured : List BaseMessage → String) (fuel : Nat) :
    runFromAgent loopLLM loopTool structured fuel
      [BaseMessage.human ("find trains to delhi")] = none :=
  runFromAgent_loop_none structured fuel _ (BaseMessage.human ("find trains to delhi"))
    rfl (by decide) (by decide)

/-- The seven fields the schedule loader reads from every record. -/
def requiredFields : List String :=
  [("name"), ("train_no"), ("source"), ("destination"), ("price"), ("class"), ("days")]

/-- A record is well-formed when all seven fields are present. -/
def wellFormed (t : TrainRecord) : Bool :=
  requiredFields.all (fun k => (List.lookup k t).isSome)

/-- Field projection of a well-formed record (defaulting for totality). -/
def fieldD (t : TrainRecord) (k : String) : String := (List.lookup k t).getD ("")

/-- The sentence `_load_json_docs` renders for a well-formed record. -/
def trainText (t : TrainRecord) : String :=
  "Train " ++ fieldD t ("name") ++ " (" ++ fieldD t ("train_no") ++ ") travels from " ++
  fieldD t ("source") ++ " to " ++ fieldD t ("destination") ++ ". Price: " ++
  fieldD t ("price") ++ ". Class: " ++ fieldD t ("class") ++ ". Days: " ++
  fieldD t ("days") ++ "."

/-- On a well-formed record the f-string succeeds with `trainText`. -/
theorem renderTrain_wellFormed (t : TrainRecord) (h : wellFormed t = true) :
    renderTrain t = Except.ok (trainText t) := by
  simp only [wellFormed, requiredFields, List.all_cons, List.all_nil, Bool.and_eq_true,
    Option.isSome_iff_exists, and_true] at h
  obtain ⟨⟨v1, h1⟩, ⟨v2, h2⟩, ⟨v3, h3⟩, ⟨v4, h4⟩, ⟨v5, h5⟩, ⟨v6, h6⟩, v7, h7⟩ := h
  simp only [renderTrain, getField, trainText, fieldD, h1, h2, h3, h4, h5, h6, h7,
    Option.getD_some]
  rfl

/-- On a list of well-formed records the loader loop succeeds and yields
one schedule-tagged document per record, in order. -/
theorem renderAll_wellFormed (rs : List TrainRecord) (h : ∀ t ∈ rs, wellFormed t = true) :
    renderAll rs = Except.ok (rs.map (fun t => Document.mk (trainText t) ("schedule"))) := by
  induction rs with
  | nil => rfl
  | cons t ts ih =>
    have ht := renderTrain_wellFormed t (h t (List.mem_cons_self t ts))
    have hts := ih (fun x hx => h x (List.mem_cons_of_mem t hx))
    simp only [renderAll, ht, hts, List.map_cons]
    rfl

/-- Each field value of a record occurs verbatim inside its sentence. -/
theorem substr_fieldD_trainText (t : TrainRecord) :
    ∀ k ∈ requiredFields, substr (fieldD t k) (trainText t) := by
  intro k hk
  unfold trainText
  simp only [requiredFields, List.mem_cons, List.not_mem_nil, or_false] at hk
  rcases hk with rfl | rfl | rfl | rfl | rfl | rfl | rfl
  · iterate 13 apply substr_append_left
    exact substr_append_right _ _ _ (substr_refl _)
  · iterate 11 apply substr_append_left
    exact substr_append_right _ _ _ (substr_refl _)
  · iterate 9 apply substr_append_left
    exact substr_append_right _ _ _ (substr_refl _)
  · iterate 7 apply substr_append_left
    exact substr_append_right _ _ _ (substr_refl _)
  · iterate 5 apply substr_append_left
    exact substr_append_right _ _ _ (substr_refl _)
  · iterate 3 apply substr_append_left
    exact substr_append_right _ _ _ (substr_refl _)
  · apply substr_append_left
    exact substr_append_right _ _ _ (substr_refl _)

/-- C4: for a schedule source parsing as N well-formed records and no
policy file, the loader yields exactly N chunks, all tagged `schedule`,
and the chunk of each record contains every one of its field values
(name, number, source, destination, price, class, and days too) as a
substring. -/
theorem C4_schedule_loader (rs : List TrainRecord) (h : ∀ t ∈ rs, wellFormed t = true) :
    loadAllDocs (some rs) none =
      Except.ok (rs.map (fun t => Document.mk (trainText t) ("schedule"))) ∧
    (rs.map (fun t => Document.mk (trainText t) ("schedule"))).length = rs.length ∧
    (∀ d ∈ rs.map (fun t => Document.mk (trainText t) ("schedule")), d.source = "schedule") ∧
    (∀ t ∈ rs, ∀ k ∈ requiredFields, substr (fieldD t k) (trainText t)) := by
  refine ⟨?_, List.length_map _ _, ?_, fun t _ => substr_fieldD_trainText t⟩
  · simp [loadAllDocs, load_json_docs, renderAll_wellFormed rs h, load_text_docs]
  · intro d hd
    obtain ⟨t, _, rfl⟩ := List.mem_map.mp hd
    rfl

/-- A concrete well-formed schedule record. -/
def witnessRecord : TrainRecord :=
  [(("name"), ("GoldenTemple")), (("train_no"), ("12903")), (("source"), ("Mumbai")),
   (("destination"), ("Amritsar")), (("price"), ("850")), (("class"), ("SL")),
   (("days"), ("Mon Wed Fri"))]

/-- Witness for C4 on a one-record schedule. -/
theorem C4_witness :
    loadAllDocs (some [witnessRecord]) none =
      Except.ok [Document.mk (trainText witnessRecord) ("schedule")] ∧
    substr (fieldD witnessRecord ("name")) (trainText witnessRecord) :=
  ⟨(C4_schedule_loader [witnessRecord] (by decide)).1,
   (C4_schedule_loader [witnessRecord] (by decide)).2.2.2 witnessRecord (by decide) ("name")
     (by decide)⟩

/-- C3: when build time gathered no chunks, `_build_pipeline` returns with
the retriever left uninitialized, and then `search` — a total function of
the model, so it cannot throw — answers the fixed sentinel string for
every query and every external ranking. -/
theorem C3_empty_index_sentinel (jsonData : Option (List TrainRecord))
    (policyText : Option String)
    (hempty : loadAllDocs jsonData policyText = Except.ok []) :
    TransitRetriever.init jsonData policyText = Except.ok (TransitRetriever.mk none) ∧
    ∀ (nn : List Document → String → List Document) (q : String),
      TransitRetriever.search nn (TransitRetriever.mk none) q = notInitializedMsg := by
  constructor
  · simp only [TransitRetriever.init, hempty]
    rfl
  · intro nn q
    rfl

/-- Witness for C3: both source files missing gives an empty chunk set,
an uninitialized retriever, and the sentinel on a concrete query. -/
theorem C3_witness :
    TransitRetriever.init none none = Except.ok (TransitRetriever.mk none) ∧
    TransitRetriever.search (fun docs _ => docs) (TransitRetriever.mk none) ("refund policy") =
      notInitializedMsg :=
  ⟨(C3_empty_index_sentinel none none rfl).1,
   (C3_empty_index_sentinel none none rfl).2 (fun docs _ => docs) ("refund policy")⟩

/-- C5: a missing schedule file yields the warning plus zero chunks from
that source while the policy chunks still go through, and symmetrically a
missing policy file leaves exactly the schedule chunks; neither case is
fatal. -/
theorem C5_missing_file_partial (jsonData : Option (List TrainRecord))
    (policyText : Option String) (docs : List Document) (logs : List String)
    (hjson : load_json_docs jsonData = Except.ok (docs, logs)) :
    load_json_docs none = Except.ok ([], [jsonNotFoundWarning]) ∧
    load_text_docs none = ([], [policyNotFoundWarning]) ∧
    loadAllDocs none policyText = Except.ok (load_text_docs policyText).1 ∧
    loadAllDocs jsonData none = Except.ok docs := by
  refine ⟨rfl, rfl, ?_, ?_⟩
  · simp [loadAllDocs, load_json_docs]
  · simp [loadAllDocs, hjson, load_text_docs]

/-- Witness for C5: empty (but present) schedule source and missing
policy source, plus the two missing-file conjuncts evaluated. -/
theorem C5_witness :
    load_json_docs none = Except.ok ([], [jsonNotFoundWarning]) ∧
    load_text_docs none = ([], [policyNotFoundWarning]) ∧
    loadAllDocs none none = Except.ok (load_text_docs none).1 ∧
    loadAllDocs (some []) none = Except.ok [] :=
  C5_missing_file_partial (some []) none [] [] rfl

/-- C6: on a built index, `search` returns the texts of the first at most
three entries of the external similarity-descending ranking `nn`, joined
with blank lines — a prefix of the ranking, so similarity order is
preserved. -/
theorem C6_search_top3 (nn : List Document → String → List Document)
    (r : TransitRetriever) (docs : List Document) (q : String)
    (h : r.retriever = some docs) :
    ∃ sel : List Document, sel <+: nn docs q ∧ sel.length ≤ 3 ∧
      TransitRetriever.search nn r q =
        String.intercalate ("\n\n") (sel.map Document.page_content) := by
  refine ⟨(nn docs q).take 3, List.take_prefix _ _, ?_, ?_⟩
  · rw [List.length_take]
    exact min_le_left _ _
  · simp [TransitRetriever.search, h]

/-- Witness for C6 on a concrete two-document index with the identity
ranking. -/
theorem C6_witness :
    ∃ sel : List Document,
      sel <+: [Document.mk ("t1") ("schedule"), Document.mk ("t2") ("policy")] ∧
      sel.length ≤ 3 ∧
      TransitRetriever.search (fun docs _ => docs)
        (TransitRetriever.mk (some [Document.mk ("t1") ("schedule"),
          Document.mk ("t2") ("policy")])) ("q") =
        String.intercalate ("\n\n") (sel.map Document.page_content) :=
  C6_search_top3 (fun docs _ => docs)
    (TransitRetriever.mk (some [Document.mk ("t1") ("schedule"), Document.mk ("t2") ("policy")]))
    [Document.mk ("t1") ("schedule"), Document.mk ("t2") ("policy")] ("q") rfl

/-- A well-formed schedule record. -/
def goodRecord : TrainRecord :=
  [(("name"), ("Duronto Express")), (("train_no"), ("12213")), (("source"), ("Delhi")),
   (("destination"), ("Mumbai")), (("price"), ("1500")), (("class"), ("SL")),
   (("days"), ("Daily"))]

/-- A record lacking the `price` field. -/
def badRecord : TrainRecord :=
  [(("name"), ("Rajdhani Express")), (("train_no"), ("12301")), (("source"), ("Delhi")),
   (("destination"), ("Mumbai")), (("class"), ("3A")), (("days"), ("Daily"))]

/-- C10: a schedule file that parses but holds a record lacking `price`
makes the loader raise `KeyError` — the whole load fails, nothing is
skipped, the chunks of the preceding well-formed record are not returned
— and because `_load_json_docs` catches only `FileNotFoundError`, the
error escapes `TransitRetriever.__init__` and the startup block in
src/app.py prints it and exits the process. -/
theorem C10_missing_field_fatal :
    renderTrain badRecord = Except.error ("price") ∧
    load_json_docs (some [goodRecord, badRecord]) = Except.error ("price") ∧
    TransitRetriever.init (some [goodRecord, badRecord]) (some ("Refunds are allowed.")) =
      Except.error ("price") ∧
    startApp (some [goodRecord, badRecord]) (some ("Refunds are allowed.")) =
      Startup.exited ("price") :=
  ⟨rfl, rfl, rfl, rfl⟩

/-- A non-empty text splits into at least one window. -/
theorem splitWindows_ne_nil (l : List Char) (h : l ≠ []) : splitWindows l ≠ [] := by
  unfold splitWindows
  split
  · simp [h]
  · simp

/-- Concatenation of the windows with each overlap dropped once; equality
with the original text says the windows tile it without gaps. -/
def reconstruct : List (List Char) → List Char
  | [] => []
  | [w] => w
  | w :: ws => w.take windowStride ++ reconstruct ws

/-- The windows of `splitWindows` tile the input without gaps. -/
theorem reconstruct_splitWindows (l : List Char) : reconstruct (splitWindows l) = l := by
  induction l using splitWindows.induct with
  | case1 l h he =>
    unfold splitWindows
    rw [dif_pos h, if_pos he]
    rw [List.isEmpty_iff] at he
    rw [he]
    rfl
  | case2 l h he =>
    unfold splitWindows
    rw [dif_pos h, if_neg he]
    rfl
  | case3 l h ih =>
    unfold splitWindows
    rw [dif_neg h]
    have hdne : l.drop windowStride ≠ [] := by
      rw [Ne, List.drop_eq_nil_iff]
      simp only [windowStride, chunk_size, chunk_overlap] at h ⊢
      omega
    obtain ⟨r, rs, hr⟩ := List.exists_cons_of_ne_nil (splitWindows_ne_nil _ hdne)
    rw [hr]
    show (l.take chunk_size).take windowStride ++ reconstruct (r :: rs) = l
    rw [← hr, ih, List.take_take]
    have hmin : windowStride ⊓ chunk_size = windowStride := by decide
    rw [hmin, List.take_append_drop]

/-- Every adjacent pair of windows agrees on an overlap of at most
`chunk_overlap` characters: the part of a window past the stride is a
prefix of the next window. -/
def overlapOK : List (List Char) → Prop
  | w1 :: w2 :: ws =>
    (w1.drop windowStride <+: w2) ∧ (w1.drop windowStride).length ≤ chunk_overlap ∧
      overlapOK (w2 :: ws)
  | _ => True

/-- Consecutive windows of `splitWindows` overlap by up to 80 characters. -/
theorem overlapOK_splitWindows (l : List Char) : overlapOK (splitWindows l) := by
  induction l using splitWindows.induct with
  | case1 l h he =>
    unfold splitWindows
    rw [dif_pos h, if_pos he]
    trivial
  | case2 l h he =>
    unfold splitWindows
    rw [dif_pos h, if_neg he]
    trivial
  | case3 l h ih =>
    unfold splitWindows
    rw [dif_neg h]
    have hdne : l.drop windowStride ≠ [] := by
      rw [Ne, List.drop_eq_nil_iff]
      simp only [windowStride, chunk_size, chunk_overlap] at h ⊢
      omega
    obtain ⟨r, rs, hr⟩ := List.exists_cons_of_ne_nil (splitWindows_ne_nil _ hdne)
    rw [hr]
    have hdrop : (l.take chunk_size).drop windowStride =
        (l.drop windowStride).take (chunk_size - windowStride) := by
      rw [List.drop_take]
    have hlen : ((l.take chunk_size).drop windowStride).length ≤ chunk_overlap := by
      rw [hdrop, List.length_take]
      exact le_trans (min_le_left _ _) (by decide)
    have hpre : (l.take chunk_size).drop windowStride <+: r := by
      rw [hdrop]
      have hr2 := hr
      unfold splitWindows at hr2
      by_cases hd : (l.drop windowStride).length ≤ chunk_size
      · rw [dif_pos hd] at hr2
        rw [if_neg (by simp [hdne])] at hr2
        have hre : r = l.drop windowStride := by
          injection hr2 with h1 _
          exact h1.symm
        rw [hre]
        exact List.take_prefix _ _
      · rw [dif_neg hd] at hr2
        have hre : r = (l.drop windowStride).take chunk_size := by
          injection hr2 with h1 _
          exact h1.symm
        rw [hre]
        have htt : (l.drop windowStride).take (chunk_size - windowStride) =
            ((l.drop windowStride).take chunk_size).take (chunk_size - windowStride) := by
          rw [List.take_take]
          congr 1
        rw [htt]
        exact List.take_prefix _ _
    show ((l.take chunk_size).drop windowStride <+: r) ∧
      ((l.take chunk_size).drop windowStride).length ≤ chunk_overlap ∧ overlapOK (r :: rs)
    exact ⟨hpre, hlen, by rw [← hr]; exact ih⟩

/-- C8: the splitter is configured with window size 500 and overlap 80
(the constants passed to it in `_load_text_docs`); for every policy text
its windows tile the full text without gaps (`reconstruct` restores the
text) and consecutive windows overlap by at most 80 characters; each
window becomes one chunk tagged `policy`. The splitter itself is a
third-party library modelled from the spec as fixed-stride character
windows (see `splitWindows`). -/
theorem C8_policy_splitter (text : String) :
    chunk_size = 500 ∧ chunk_overlap = 80 ∧
    (load_text_docs (some text)).1 =
      (splitWindows text.data).map (fun w => Document.mk (String.mk w) ("policy")) ∧
    reconstruct (splitWindows text.data) = text.data ∧
    overlapOK (splitWindows text.data) :=
  ⟨rfl, rfl, rfl, reconstruct_splitWindows text.data, overlapOK_splitWindows text.data⟩
